import Mathlib

set_option maxRecDepth 40000

/-!
Verification of the clipboard-copy widget in `src/CopyStyledLinkButton.tsx`.

The file defines a shallow embedding of the two copy operations
(`copyFormattedLink` and `copyStyledLink`) as explicit state-passing
functions over a browser state (clipboard, document body, selection,
alerts, console), with the environment's nondeterminism (whether the
modern clipboard write resolves, and how `execCommand` behaves) made
an explicit parameter.
-/

/-- The clipboard, holding at most one representation per MIME slot.
A copy operation replaces the whole entry. -/
structure Clipboard where
  html : Option String
  text : Option String
deriving DecidableEq, Repr

/-- DOM elements appended to the document body by the two operations:
the fallback textarea (holding a value) and the hidden contentEditable
div of the legacy variant (holding rendered HTML). -/
inductive Elem
  | textarea (value : String)
  | div (innerHTML : String) (contentEditable : Bool)
deriving DecidableEq, Repr

/-- The document selection: empty, the value selected inside a textarea
( `textArea.select()` ), or a content-range selection over rendered DOM
( `range.selectNodeContents` ), which carries both the serialized HTML
and its text content. -/
inductive SelTarget
  | none
  | textareaValue (value : String)
  | content (html : String) (text : String)
deriving DecidableEq, Repr

/-- Observable browser state threaded through the operations. -/
structure DomState where
  clipboard : Clipboard
  body : List Elem
  selection : SelTarget
  alerts : List String
  consoleErrors : List String
deriving DecidableEq, Repr

/-- How `document.execCommand` behaves in the host environment:
returns true, returns false, or throws (the sibling variant's own
try/catch shows the code expects the throwing outcome). -/
inductive CmdOutcome
  | ok
  | fail
  | throws
deriving DecidableEq, Repr

/-- The environment the operations run in: whether
`navigator.clipboard.write` resolves, and the `execCommand` behavior. -/
structure Env where
  writeSucceeds : Bool
  execCopy : CmdOutcome
deriving DecidableEq, Repr

/-- Whether an invocation ran to completion or propagated an exception
(for the async variant: a rejected promise). -/
inductive Outcome
  | completed
  | threw
deriving DecidableEq, Repr

/-- `const url = "https://your-domain.com/your-path"` (line 5). -/
def url : String := "https://your-domain.com/your-path"

/-- The `buttonHtml` template literal (lines 6-45), with `url`
interpolated exactly where the source interpolates it. -/
def buttonHtml : String :=
  "\n      <!--[if mso]>" ++
  "\n      <div style=\"display: inline-block; mso-hide:all;\">" ++
  "\n        <a href=\"" ++ url ++ "\" style=\"text-decoration: none;\">" ++
  "\n          <v:roundrect xmlns:v=\"urn:schemas-microsoft-com:vml\"" ++
  "\n            xmlns:w=\"urn:schemas-microsoft-com:office:word\"" ++
  "\n            style=\"height:38px;width:120px;\"" ++
  "\n            arcsize=\"10%\"" ++
  "\n            strokecolor=\"#ff4444\"" ++
  "\n            fillcolor=\"#ff4444\">" ++
  "\n            <v:textbox inset=\"0,0,0,0\">" ++
  "\n              <center style=\"color:#ffffff;" ++
  "\n                font-family:Arial,sans-serif;" ++
  "\n                font-size:14px;" ++
  "\n                margin-top: 9px;\">" ++
  "\n                Click Here" ++
  "\n              </center>" ++
  "\n            </v:textbox>" ++
  "\n          </v:roundrect>" ++
  "\n        </a>" ++
  "\n      </div>" ++
  "\n      <![endif]-->" ++
  "\n      <!--[if !mso]><!-- -->" ++
  "\n      <a href=\"" ++ url ++ "\"" ++
  "\n         style=\"" ++
  "\n           display: inline-block;" ++
  "\n           background-color: #ff4444;" ++
  "\n           color: white !important;" ++
  "\n           padding: 8px 16px;" ++
  "\n           text-decoration: none;" ++
  "\n           border-radius: 4px;" ++
  "\n           font-family: Arial, sans-serif;" ++
  "\n           font-size: 14px;" ++
  "\n           border: 0;" ++
  "\n           mso-hide:all;" ++
  "\n         \">" ++
  "\n        Click Here" ++
  "\n      </a>" ++
  "\n      <!--<![endif]-->" ++
  "\n    "

/-- The `fullHtml` template literal (lines 47-52). -/
def fullHtml : String :=
  "\n      <meta http-equiv=\"Content-Type\" content=\"text/html; charset=utf-8\">" ++
  "\n      <div style=\"mso-hide:all; display: inline-block;\">" ++
  "\n        " ++ buttonHtml ++
  "\n      </div>" ++
  "\n    "

/-- `const plainText = url` (line 58). -/
def plainText : String := url

/-- The `html` template literal of `copyStyledLink` (lines 107-117). -/
def styledHtml : String :=
  "\n      <a href=\"https://example.com\" style=\"" ++
  "\n        display: inline-block;" ++
  "\n        padding: 8px 16px;" ++
  "\n        background-color: #0078D4;" ++
  "\n        color: white;" ++
  "\n        text-decoration: none;" ++
  "\n        border-radius: 6px;" ++
  "\n        font-family: \x27Segoe UI\x27, sans-serif;" ++
  "\n        font-size: 14px;" ++
  "\n      \">Click Me</a>"

/-- Text content of a rendered markup fragment: everything outside
angle-bracketed tags (the model of `Node.textContent` for the
tag-only markup appearing here). The Bool flag is "inside a tag". -/
def stripTagsAux : Bool → List Char → List Char
  | _, [] => []
  | false, c :: cs =>
      if c = '<' then stripTagsAux true cs else c :: stripTagsAux false cs
  | true, c :: cs =>
      if c = '>' then stripTagsAux false cs else stripTagsAux true cs

/-- Text content of a markup string. -/
def stripTags (s : String) : String := String.mk (stripTagsAux false s.data)

/-- The characters of the attribute opener `href="`. -/
def hrefKey : List Char := "href=\"".data

/-- Characters up to (excluding) the next double quote. -/
def takeUntilQuote : List Char → List Char
  | [] => []
  | c :: cs => if c = '"' then [] else c :: takeUntilQuote cs

/-- Collect every `href="..."` attribute value occurring in a
character list, in order. -/
def extractHrefsAux : List Char → List String
  | [] => []
  | c :: cs =>
      if hrefKey.isPrefixOf (c :: cs) then
        String.mk (takeUntilQuote (cs.drop 5)) :: extractHrefsAux cs
      else
        extractHrefsAux cs

/-- All anchor-href values of a markup string. -/
def extractHrefs (s : String) : List String := extractHrefsAux s.data

/-- Whether `needle` occurs as a contiguous substring of `hay`. -/
def containsSub : List Char → List Char → Bool
  | hay, needle =>
      needle.isPrefixOf hay ||
        match hay with
        | [] => false
        | _ :: t => containsSub t needle

/-- `document.execCommand("copy")` under outcome `o`, given the current
selection and clipboard: `none` models a throw; otherwise the returned
Bool and the resulting clipboard. A successful copy replaces the whole
clipboard entry: a textarea selection yields plain text only, a content
selection yields both the serialized HTML and its text content; with no
selection the command fails and the clipboard is untouched. -/
def execCommandCopy (o : CmdOutcome) (sel : SelTarget) (c : Clipboard) :
    Option (Bool × Clipboard) :=
  match o with
  | CmdOutcome.throws => Option.none
  | CmdOutcome.fail => Option.some (false, c)
  | CmdOutcome.ok =>
      match sel with
      | SelTarget.none => Option.some (false, c)
      | SelTarget.textareaValue v =>
          Option.some (true, { html := Option.none, text := Option.some v })
      | SelTarget.content h t =>
          Option.some (true, { html := Option.some h, text := Option.some t })

/-- `copyFormattedLink` (lines 4-82): attempt the multi-format
clipboard write; on success alert "Copied formatted link!"; on
rejection run the fallback: append a textarea holding `plainText`,
select it, `execCommand("copy")`, remove the textarea, alert
"URL copied as plain text". The fallback body is inside the catch
block but has no inner try/catch, so a throwing `execCommand`
propagates (the async function's promise rejects) with the textarea
still in the document. -/
def copyFormattedLink (env : Env) (s : DomState) : Outcome × DomState :=
  if env.writeSucceeds then
    (Outcome.completed,
      { s with
          clipboard := { html := Option.some fullHtml, text := Option.some plainText },
          alerts := s.alerts ++ ["Copied formatted link!"] })
  else
    let withTextarea : DomState :=
      { s with
          body := s.body ++ [Elem.textarea plainText],
          selection := SelTarget.textareaValue plainText }
    match execCommandCopy env.execCopy withTextarea.selection withTextarea.clipboard with
    | Option.none => (Outcome.threw, withTextarea)
    | Option.some (_, clip) =>
        (Outcome.completed,
          { withTextarea with
              clipboard := clip,
              body := withTextarea.body.dropLast,
              alerts := withTextarea.alerts ++ ["URL copied as plain text"] })

/-- `copyStyledLink` (lines 106-146): append a hidden contentEditable
div holding the rendered `styledHtml`, select its contents, try
`execCommand("copy")` inside try/catch (success alerts, a false return
or a throw logs to console.error), then unconditionally clear the
selection and remove the div. -/
def copyStyledLink (env : Env) (s : DomState) : Outcome × DomState :=
  let withContainer : DomState :=
    { s with body := s.body ++ [Elem.div styledHtml true] }
  let selected : DomState :=
    { withContainer with
        selection := SelTarget.content styledHtml (stripTags styledHtml) }
  let afterTry : DomState :=
    match execCommandCopy env.execCopy selected.selection selected.clipboard with
    | Option.none =>
        { selected with consoleErrors := selected.consoleErrors ++ ["Copy failed"] }
    | Option.some (true, clip) =>
        { selected with
            clipboard := clip,
            alerts := selected.alerts ++ ["Styled link copied! Paste into Outlook!"] }
    | Option.some (false, _) =>
        { selected with
            consoleErrors := selected.consoleErrors ++ ["Copy command was unsuccessful"] }
  (Outcome.completed,
    { afterTry with
        selection := SelTarget.none,
        body := afterTry.body.dropLast })

/-- A browser state with empty clipboard, body, selection and logs. -/
def initState : DomState :=
  { clipboard := { html := Option.none, text := Option.none },
    body := [],
    selection := SelTarget.none,
    alerts := [],
    consoleErrors := [] }

example : plainText = url := by decide

example : extractHrefs styledHtml = ["https://example.com"] := by decide

example : extractHrefs fullHtml = [url, url] := by decide

example : stripTags styledHtml = "\n      Click Me" := by decide

example : containsSub (stripTags styledHtml).data "Click Me".data = true := by decide

/-- C1 (counterexample): the claim "after either copy operation the
clipboard's plain-text slot equals the configured URL" fails for
`copyStyledLink`: with a succeeding copy command on an initially empty
state, the plain-text slot holds the selection's text content, not the
configured URL `https://example.com`. -/
theorem C1_counterexample :
    ((copyStyledLink ⟨true, CmdOutcome.ok⟩ initState).2).clipboard.text ≠
      Option.some "https://example.com" := by decide

/-- C1 (amended): after `copyFormattedLink`, whenever the modern write
succeeds or the fallback copy command succeeds, the clipboard's
plain-text slot equals the configured URL; `copyStyledLink`, when its
copy command succeeds, instead places the selection's text content in
the plain-text slot. -/
theorem C1_amended (env : Env) (s : DomState)
    (h : env.writeSucceeds = true ∨ env.execCopy = CmdOutcome.ok) :
    ((copyFormattedLink env s).2).clipboard.text = Option.some url ∧
    ((copyStyledLink env s).2).clipboard.text =
      (if env.execCopy = CmdOutcome.ok then Option.some (stripTags styledHtml)
       else s.clipboard.text) := by
  obtain ⟨ws, ec⟩ := env
  cases ws <;> cases ec <;>
    simp_all [copyFormattedLink, copyStyledLink, execCommandCopy, plainText]

/-- C1 (witness): the amended statement at a concrete environment. -/
theorem C1_witness :
    ((copyFormattedLink ⟨true, CmdOutcome.ok⟩ initState).2).clipboard.text =
      Option.some url ∧
    ((copyStyledLink ⟨true, CmdOutcome.ok⟩ initState).2).clipboard.text =
      (if (⟨true, CmdOutcome.ok⟩ : Env).execCopy = CmdOutcome.ok
       then Option.some (stripTags styledHtml)
       else initState.clipboard.text) :=
  C1_amended ⟨true, CmdOutcome.ok⟩ initState (Or.inl rfl)

/-- C2 (counterexample): when the modern write rejects and the fallback
`execCommand` throws, `copyFormattedLink` does not complete: the
exception escapes the operation (its promise rejects), because the
fallback body inside the catch block has no inner try/catch. -/
theorem C2_counterexample :
    (copyFormattedLink ⟨false, CmdOutcome.throws⟩ initState).1 ≠
      Outcome.completed := by decide

/-- C2 (amended): `copyFormattedLink` propagates no exception provided
that, when the modern write rejects, the fallback `execCommand` does
not throw. -/
theorem C2_amended (env : Env) (s : DomState)
    (h : env.writeSucceeds = false → env.execCopy ≠ CmdOutcome.throws) :
    (copyFormattedLink env s).1 = Outcome.completed := by
  obtain ⟨ws, ec⟩ := env
  cases ws <;> cases ec <;> simp_all [copyFormattedLink, execCommandCopy]

/-- C2 (witness): the amended statement at a concrete environment. -/
theorem C2_witness :
    (copyFormattedLink ⟨false, CmdOutcome.ok⟩ initState).1 = Outcome.completed :=
  C2_amended ⟨false, CmdOutcome.ok⟩ initState (by decide)

/-- C3 (counterexample): when the modern write rejects and the fallback
`execCommand` throws, the temporary textarea is NOT removed: starting
from an empty body, the body after `copyFormattedLink` is not empty. -/
theorem C3_counterexample :
    ((copyFormattedLink ⟨false, CmdOutcome.throws⟩ initState).2).body ≠
      initState.body := by decide

/-- C3 (amended): the temporary container is removed before the
operation completes — for `copyStyledLink` always, and for
`copyFormattedLink` provided the fallback `execCommand` does not throw
(when it throws, the textarea is left in the document). -/
theorem C3_amended (env : Env) (s : DomState)
    (h : env.writeSucceeds = false → env.execCopy ≠ CmdOutcome.throws) :
    ((copyFormattedLink env s).2).body = s.body ∧
    ((copyStyledLink env s).2).body = s.body := by
  obtain ⟨ws, ec⟩ := env
  cases ws <;> cases ec <;>
    simp_all [copyFormattedLink, copyStyledLink, execCommandCopy]

/-- C3 (witness): the amended statement at a concrete environment. -/
theorem C3_witness :
    ((copyFormattedLink ⟨false, CmdOutcome.fail⟩ initState).2).body =
      initState.body ∧
    ((copyStyledLink ⟨false, CmdOutcome.fail⟩ initState).2).body =
      initState.body :=
  C3_amended ⟨false, CmdOutcome.fail⟩ initState (by decide)

/-- C4 (counterexample): with the modern write rejecting and the
fallback copy succeeding, the plain-text slot after `copyFormattedLink`
is not `https://example.com`: the code's configured URL is
`https://your-domain.com/your-path`. -/
theorem C4_counterexample :
    ((copyFormattedLink ⟨false, CmdOutcome.ok⟩ initState).2).clipboard.text ≠
      Option.some "https://example.com" := by decide

/-- C4 (amended): when the modern write rejects and the fallback copy
command succeeds, `copyFormattedLink` leaves
`https://your-domain.com/your-path` (the URL the code configures) in
the plain-text slot and displays "URL copied as plain text". -/
theorem C4_amended (env : Env) (s : DomState)
    (h1 : env.writeSucceeds = false) (h2 : env.execCopy = CmdOutcome.ok) :
    ((copyFormattedLink env s).2).clipboard.text =
      Option.some "https://your-domain.com/your-path" ∧
    "URL copied as plain text" ∈ ((copyFormattedLink env s).2).alerts := by
  obtain ⟨ws, ec⟩ := env
  subst h1; subst h2
  simp [copyFormattedLink, execCommandCopy, plainText, url]

/-- C4 (witness): the amended statement at a concrete environment. -/
theorem C4_witness :
    ((copyFormattedLink ⟨false, CmdOutcome.ok⟩ initState).2).clipboard.text =
      Option.some "https://your-domain.com/your-path" ∧
    "URL copied as plain text" ∈
      ((copyFormattedLink ⟨false, CmdOutcome.ok⟩ initState).2).alerts :=
  C4_amended ⟨false, CmdOutcome.ok⟩ initState rfl rfl

/-- C5 (counterexample): with the modern write rejecting and the
fallback copy command returning false, `copyFormattedLink` leaves the
clipboard exactly as it was — here empty, so it ends with no plain-text
representation at all, contradicting "(a) both or (b) plain-text only"
and "never left unchanged". -/
theorem C5_counterexample :
    ((copyFormattedLink ⟨false, CmdOutcome.fail⟩ initState).2).clipboard =
        initState.clipboard ∧
    ((copyFormattedLink ⟨false, CmdOutcome.fail⟩ initState).2).clipboard.text =
        Option.none := by decide

/-- C5 (amended): after `copyFormattedLink`, the clipboard holds both
representations, or the plain text only, or — when the modern write
rejects and the fallback copy command does not succeed — it is left
exactly unchanged. -/
theorem C5_amended (env : Env) (s : DomState) :
    (((copyFormattedLink env s).2).clipboard.html.isSome = true ∧
      ((copyFormattedLink env s).2).clipboard.text.isSome = true) ∨
    (((copyFormattedLink env s).2).clipboard.html = Option.none ∧
      ((copyFormattedLink env s).2).clipboard.text = Option.some url) ∨
    ((copyFormattedLink env s).2).clipboard = s.clipboard := by
  obtain ⟨ws, ec⟩ := env
  cases ws <;> cases ec <;>
    simp [copyFormattedLink, execCommandCopy, plainText]

/-- C6: the plain-text representation and the HTML representation built
by `copyFormattedLink` embed the same destination: the plain text is
the configured URL, and the anchor hrefs of the HTML fragment — one in
the legacy-office conditional branch, one in the standard branch — are
both that URL. -/
theorem C6_same_destination :
    plainText = url ∧ extractHrefs fullHtml = [url, url] := by decide

/-- C7: whenever the multi-format write succeeds, the HTML placed on
the clipboard is `fullHtml`, which carries the configured URL as an
anchor href. -/
theorem C7_html_anchor (env : Env) (s : DomState)
    (h : env.writeSucceeds = true) :
    ((copyFormattedLink env s).2).clipboard.html = Option.some fullHtml ∧
    url ∈ extractHrefs fullHtml := by
  refine ⟨?_, ?_⟩
  · simp [copyFormattedLink, h]
  · decide

/-- C7 (witness): the statement at a concrete environment. -/
theorem C7_witness :
    ((copyFormattedLink ⟨true, CmdOutcome.ok⟩ initState).2).clipboard.html =
      Option.some fullHtml ∧
    url ∈ extractHrefs fullHtml :=
  C7_html_anchor ⟨true, CmdOutcome.ok⟩ initState rfl

/-- C8: `copyStyledLink` selects content that, when the copy command
succeeds, reaches the clipboard as the styled fragment whose single
anchor targets `https://example.com` and whose text content contains
the label "Click Me". -/
theorem C8_styled_payload (env : Env) (s : DomState)
    (h : env.execCopy = CmdOutcome.ok) :
    ((copyStyledLink env s).2).clipboard.html = Option.some styledHtml ∧
    extractHrefs styledHtml = ["https://example.com"] ∧
    containsSub (stripTags styledHtml).data "Click Me".data = true := by
  refine ⟨?_, by decide, by decide⟩
  simp [copyStyledLink, execCommandCopy, h]

/-- C8 (witness): the statement at a concrete environment. -/
theorem C8_witness :
    ((copyStyledLink ⟨true, CmdOutcome.ok⟩ initState).2).clipboard.html =
      Option.some styledHtml ∧
    extractHrefs styledHtml = ["https://example.com"] ∧
    containsSub (stripTags styledHtml).data "Click Me".data = true :=
  C8_styled_payload ⟨true, CmdOutcome.ok⟩ initState rfl

/-- C9: for every outcome of `copyStyledLink`, the success notification
is shown exactly when the copy command returns true, and failures (a
false return or a throw) are reported only on the console, with no
user-visible alert. -/
theorem C9_failure_reporting (env : Env) (s : DomState) :
    ((copyStyledLink env s).2).alerts =
      (if env.execCopy = CmdOutcome.ok
       then s.alerts ++ ["Styled link copied! Paste into Outlook!"]
       else s.alerts) ∧
    ((copyStyledLink env s).2).consoleErrors =
      (if env.execCopy = CmdOutcome.ok then s.consoleErrors
       else if env.execCopy = CmdOutcome.throws
       then s.consoleErrors ++ ["Copy failed"]
       else s.consoleErrors ++ ["Copy command was unsuccessful"]) := by
  obtain ⟨ws, ec⟩ := env
  cases ec <;> simp [copyStyledLink, execCommandCopy]

/-- C10: for every environment and initial state, the document
selection is empty when `copyStyledLink` returns: the final
`removeAllRanges` runs on every path, success or failure. -/
theorem C10_selection_cleared (env : Env) (s : DomState) :
    ((copyStyledLink env s).2).selection = SelTarget.none := by
  obtain ⟨ws, ec⟩ := env
  cases ec <;> simp [copyStyledLink, execCommandCopy]
